import Mathlib

/-!
A shallow embedding of the TaskMasterPro2 task-management application:
the in-memory server storage (src/server/storage.ts), the Express REST
routes and the relational storage variant (src/unnamed/part_013 together
with the drizzle schema in src/server/storage.ts), and the client-side
cache / optimistic-mutation / transport-fallback layer
(src/client/src/components/TaskList.tsx, CreateTaskModal.tsx,
CategoryManageModal.tsx, src/client/src/lib/graphqlFetch.ts and
queryClient.ts).  Theorems at the end settle the stated properties of
the data-synchronization design.
-/

deriving instance DecidableEq for Except

namespace TaskMaster

/-! ## JavaScript primitives used by the code -/

/-- Leading-whitespace skip, as performed by the JS `parseInt` before
reading digits. -/
def skipWs : List Char → List Char
  | [] => []
  | c :: cs => if c = ' ' ∨ c = '\t' ∨ c = '\n' ∨ c = '\r' then skipWs cs else c :: cs

/-- The maximal leading run of decimal digits of a character list. -/
def leadingDigits : List Char → List Char
  | [] => []
  | c :: cs => if c.isDigit then c :: leadingDigits cs else []

/-- Digit-list to number, most significant first. -/
def digitsToNat (ds : List Char) : Nat :=
  ds.foldl (fun acc c => acc * 10 + (c.toNat - ('0').toNat)) 0

/-- JS `parseInt(s, 10)` applied to a query parameter that may be absent:
`parseInt(undefined)` stringifies to a non-numeric text and yields NaN,
so an absent parameter parses to `none`.  Otherwise leading whitespace is
skipped, an optional sign is read, and the maximal run of leading digits
is converted; no digits means NaN (`none`), trailing junk is ignored. -/
def parseIntJS (s : Option String) : Option Int :=
  match s with
  | none => none
  | some str =>
    let cs := skipWs str.data
    let signed : Bool × List Char :=
      match cs with
      | '-' :: cs2 => (true, cs2)
      | '+' :: cs2 => (false, cs2)
      | _ => (false, cs)
    let ds := leadingDigits signed.2
    if ds.isEmpty then none
    else if signed.1 then some (-(digitsToNat ds : Int)) else some (digitsToNat ds : Int)

/-- JS `String.prototype.trim`: strips leading and trailing
whitespace. -/
def jsTrim (s : String) : String :=
  ⟨(skipWs (skipWs s.data).reverse).reverse⟩

/-- JS `x || d` on a string that may be `undefined`: both an absent value
and the empty string fall back to the default. -/
def jsStrOr (o : Option String) (d : String) : String :=
  match o with
  | none => d
  | some s => if s = "" then d else s

/-- JS `x || null` on a string that may be `undefined`: the empty string
is collapsed to null. -/
def jsStrOrNull (o : Option String) : Option String :=
  match o with
  | some s => if s = "" then none else some s
  | none => none

/-! ## JS `Map` operations (the backing store of `MemStorage`)

JS maps are modelled as association lists in insertion order:
`Map.get` looks up the first binding, `Map.set` replaces in place or
appends, and `Map.delete` reports whether the key was present and
removes its binding. -/

def mapGet {α : Type} (l : List (Nat × α)) (k : Nat) : Option α :=
  match l.find? (fun p => p.1 == k) with
  | some p => some p.2
  | none => none

def mapSet {α : Type} (l : List (Nat × α)) (k : Nat) (v : α) : List (Nat × α) :=
  match l with
  | [] => [(k, v)]
  | p :: rest => if p.1 = k then (k, v) :: rest else p :: mapSet rest k v

def mapDelete {α : Type} (l : List (Nat × α)) (k : Nat) : Bool × List (Nat × α) :=
  match mapGet l k with
  | none => (false, l)
  | some _ => (true, l.filter (fun p => p.1 ≠ k))

/-! ## Server data model (drizzle schema in src/server/storage.ts)

Timestamps are abstracted as natural numbers supplied by the caller in
place of `new Date()`. -/

structure Task where
  id : Nat
  title : String
  description : Option String
  dueDate : Option String
  categoryId : Option Nat
  priority : String
  completed : Bool
  userId : Int
  createdAt : Nat
  updatedAt : Nat
deriving Repr, DecidableEq

structure Category where
  id : Nat
  name : String
  userId : Int
  createdAt : Nat
deriving Repr, DecidableEq

/-- `InsertTask` (the insert schema: everything except the id and the
server-assigned timestamps). -/
structure InsertTask where
  title : String
  description : Option String
  dueDate : Option String
  categoryId : Option Nat
  priority : String
  completed : Bool
  userId : Int
deriving Repr, DecidableEq

/-- `Partial<InsertTask>`: each field may be absent, in which case the
JS spread `{...existingTask, ...updates}` keeps the existing value. -/
structure TaskUpdate where
  title : Option String := none
  description : Option (Option String) := none
  dueDate : Option (Option String) := none
  categoryId : Option (Option Nat) := none
  priority : Option String := none
  completed : Option Bool := none
  userId : Option Int := none
deriving Repr, DecidableEq

/-- The JS spread `{...existingTask, ...updates, updatedAt: new Date()}`
of `MemStorage.updateTask` and the drizzle
`.set({...updates, updatedAt: new Date()})` of
`DatabaseStorage.updateTask`: supplied fields overwrite, absent fields
keep the prior value, the id and creation time are untouched and the
update time is stamped. -/
def applyTaskUpdate (t : Task) (u : TaskUpdate) (now : Nat) : Task :=
  { id := t.id
    title := u.title.getD t.title
    description := u.description.getD t.description
    dueDate := u.dueDate.getD t.dueDate
    categoryId := u.categoryId.getD t.categoryId
    priority := u.priority.getD t.priority
    completed := u.completed.getD t.completed
    userId := u.userId.getD t.userId
    createdAt := t.createdAt
    updatedAt := now }

/-! ## MemStorage (src/server/storage.ts) -/

structure MemStorage where
  tasks : List (Nat × Task)
  categories : List (Nat × Category)
  taskId : Nat
  categoryId : Nat
deriving Repr, DecidableEq

def MemStorage.getTask (s : MemStorage) (id : Nat) : Option Task :=
  mapGet s.tasks id

def MemStorage.getTasksByUserId (s : MemStorage) (userId : Int) : List Task :=
  (s.tasks.map (fun p => p.2)).filter (fun t => t.userId == userId)

def MemStorage.createTask (s : MemStorage) (it : InsertTask) (now : Nat) : Task × MemStorage :=
  let id := s.taskId
  let task : Task :=
    { id
      title := it.title
      description := it.description
      dueDate := it.dueDate
      categoryId := it.categoryId
      priority := it.priority
      completed := it.completed
      userId := it.userId
      createdAt := now
      updatedAt := now }
  (task, { s with taskId := id + 1, tasks := mapSet s.tasks id task })

def MemStorage.updateTask (s : MemStorage) (id : Nat) (u : TaskUpdate) (now : Nat) :
    Option Task × MemStorage :=
  match mapGet s.tasks id with
  | none => (none, s)
  | some t =>
    let t2 := applyTaskUpdate t u now
    (some t2, { s with tasks := mapSet s.tasks id t2 })

def MemStorage.deleteTask (s : MemStorage) (id : Nat) : Bool × MemStorage :=
  let r := mapDelete s.tasks id
  (r.1, { s with tasks := r.2 })

def MemStorage.getCategory (s : MemStorage) (id : Nat) : Option Category :=
  mapGet s.categories id

def MemStorage.getCategoriesByUserId (s : MemStorage) (userId : Int) : List Category :=
  (s.categories.map (fun p => p.2)).filter (fun c => c.userId == userId)

def MemStorage.createCategory (s : MemStorage) (name : String) (userId : Int) (now : Nat) :
    Category × MemStorage :=
  let id := s.categoryId
  let category : Category := { id, name, userId, createdAt := now }
  (category, { s with categoryId := id + 1, categories := mapSet s.categories id category })

/-- `deleteCategory` only removes the map entry; it never touches the
task map. -/
def MemStorage.deleteCategory (s : MemStorage) (id : Nat) : Bool × MemStorage :=
  let r := mapDelete s.categories id
  (r.1, { s with categories := r.2 })

/-! ## DatabaseStorage (src/unnamed/part_013) over the drizzle schema

Rows are modelled as lists; `serial` ids are supplied by the caller in
place of the sequence.  The tasks table declares
`categoryId ... references(categories.id, { onDelete: set null })`, so
deleting a category clears the reference of every task pointing at it. -/

structure PgDb where
  tasks : List Task
  categories : List Category
deriving Repr, DecidableEq

/-- `Partial<InsertTask>` as received by `DatabaseStorage.createTask`. -/
structure PartialInsertTask where
  title : Option String := none
  description : Option String := none
  dueDate : Option String := none
  categoryId : Option Nat := none
  priority : Option String := none
  completed : Option Bool := none
  userId : Option Int := none
deriving Repr, DecidableEq

/-- `DatabaseStorage.createTask`: throws when `userId` is falsy (absent
or 0); otherwise inserts a row with every falsy field defaulted
(`title || new-task default`, `description || empty`, `dueDate || null`,
`priority || medium`, `completed ?? false`).  The inserted row does not
carry the incoming categoryId (the source builds `taskToInsert` without
it), so the column takes its null default. -/
def DatabaseStorage.createTask (db : PgDb) (p : PartialInsertTask) (newId : Nat) (now : Nat) :
    Except String (Task × PgDb) :=
  match p.userId with
  | none => .error "userId is required"
  | some uid =>
    if uid = 0 then .error "userId is required"
    else
      let row : Task :=
        { id := newId
          title := jsStrOr p.title "New Task"
          description := some (jsStrOr p.description "")
          dueDate := jsStrOrNull p.dueDate
          categoryId := none
          priority := jsStrOr p.priority "medium"
          completed := p.completed.getD false
          userId := uid
          createdAt := now
          updatedAt := now }
      .ok (row, { db with tasks := db.tasks ++ [row] })

/-- `DatabaseStorage.updateTask`: updates the row with the given id (if
any) via the spread-with-updatedAt semantics and returns it; an absent
id returns undefined and leaves the table unchanged. -/
def DatabaseStorage.updateTask (db : PgDb) (id : Nat) (u : TaskUpdate) (now : Nat) :
    Option Task × PgDb :=
  match db.tasks.find? (fun t => t.id == id) with
  | none => (none, db)
  | some t =>
    (some (applyTaskUpdate t u now),
     { db with tasks := db.tasks.map (fun r => if r.id = id then applyTaskUpdate r u now else r) })

/-- `DatabaseStorage.deleteTask`: deletes matching rows and reports
whether any row was deleted (`result.length > 0`). -/
def DatabaseStorage.deleteTask (db : PgDb) (id : Nat) : Bool × PgDb :=
  (db.tasks.any (fun t => t.id == id), { db with tasks := db.tasks.filter (fun t => t.id ≠ id) })

/-- `DatabaseStorage.deleteCategory` with the schema-level
`onDelete: set null` action of the tasks.categoryId foreign key: the
category rows with the id are removed and every task referencing the id
has its reference cleared; no task row is deleted. -/
def DatabaseStorage.deleteCategory (db : PgDb) (id : Nat) : Bool × PgDb :=
  if db.categories.any (fun c => c.id == id) then
    (true,
     { categories := db.categories.filter (fun c => c.id ≠ id)
       tasks := db.tasks.map (fun t =>
         if t.categoryId = some id then { t with categoryId := none } else t) })
  else (false, db)

/-! ## Express REST routes (src/unnamed/part_013, registerRoutes)

Each route is a function from the storage state and the request data to
a status, a body and the resulting storage state. -/

inductive RouteBody where
  | tasks (ts : List Task)
  | task (t : Task)
  | categories (cs : List Category)
  | category (c : Category)
  | message (s : String)
  | empty
deriving Repr, DecidableEq

structure RouteResult where
  status : Nat
  body : RouteBody
  store : MemStorage
deriving Repr, DecidableEq

/-- `GET /api/tasks`: parseInt the userId query parameter; NaN means a
400 with an error message, otherwise the user task list is returned. -/
def getTasksRoute (s : MemStorage) (userId : Option String) : RouteResult :=
  match parseIntJS userId with
  | none => ⟨400, .message "Valid User ID is required", s⟩
  | some uid => ⟨200, .tasks (s.getTasksByUserId uid), s⟩

/-- `GET /api/categories`: same userId validation as the tasks route. -/
def getCategoriesRoute (s : MemStorage) (userId : Option String) : RouteResult :=
  match parseIntJS userId with
  | none => ⟨400, .message "Valid User ID is required", s⟩
  | some uid => ⟨200, .categories (s.getCategoriesByUserId uid), s⟩

/-- `POST /api/tasks`: the body is handed to `storage.createTask`
unvalidated and the created task is returned with a 201. -/
def postTasksRoute (s : MemStorage) (body : InsertTask) (now : Nat) : RouteResult :=
  let r := s.createTask body now
  ⟨201, .task r.1, r.2⟩

/-- `PATCH /api/tasks/:id`: a missing task yields a 404, otherwise the
updated task is returned. -/
def patchTaskRoute (s : MemStorage) (id : Nat) (u : TaskUpdate) (now : Nat) : RouteResult :=
  match s.updateTask id u now with
  | (none, s2) => ⟨404, .message "Task not found", s2⟩
  | (some t, s2) => ⟨200, .task t, s2⟩

/-- `DELETE /api/tasks/:id`: a missing task yields a 404, otherwise a
204 with no content. -/
def deleteTaskRoute (s : MemStorage) (id : Nat) : RouteResult :=
  match s.deleteTask id with
  | (false, s2) => ⟨404, .message "Task not found", s2⟩
  | (true, s2) => ⟨204, .empty, s2⟩

/-- `DELETE /api/categories/:id`: a missing category yields a 404,
otherwise a 204 with no content. -/
def deleteCategoryRoute (s : MemStorage) (id : Nat) : RouteResult :=
  match s.deleteCategory id with
  | (false, s2) => ⟨404, .message "Category not found", s2⟩
  | (true, s2) => ⟨204, .empty, s2⟩

/-! ## Client data model

Tasks as held in the react-query cache.  Fetched tasks carry numeric
ids; the optimistic temp task created by the create mutation carries the
string id `temp-` followed by `Date.now()`, modelled as a separate id
constructor. -/

inductive CId where
  | num (n : Nat)
  | temp (ms : Nat)
deriving Repr, DecidableEq

structure CTask where
  id : CId
  title : String
  description : String
  dueDate : Option String
  categoryId : Option Nat
  category : String
  priority : String
  userId : Nat
  completed : Bool
  createdAt : Nat
  updatedAt : Nat
  isOptimistic : Bool := false
deriving Repr, DecidableEq

structure CCategory where
  id : Nat
  name : String
deriving Repr, DecidableEq

/-- The cached value under the key for the GraphQL user-task query:
the raw result shape `{ data: { getUserTasks: [...] } }`, each level of
which the cache updaters guard against being absent. -/
structure GqlTasksData where
  getUserTasks : Option (List CTask)
deriving Repr, DecidableEq

structure GqlTasksResult where
  data : Option GqlTasksData
deriving Repr, DecidableEq

/-- The fully populated cached result shape holding a task list. -/
def gqlCacheOf (ts : List CTask) : GqlTasksResult :=
  { data := some { getUserTasks := some ts } }

/-! ## Transport layer

The GraphQL transport (src/client/src/lib/graphqlFetch.ts) and the REST
helper (src/client/src/lib/queryClient.ts, apiRequest).  The network
environment of one call is modelled as the observable HTTP outcome. -/

/-- What one GraphQL mutation may return in `data`. -/
structure GqlData where
  createTask : Option CTask := none
  updateTask : Option CTask := none
  deleteTask : Option CId := none
deriving Repr, DecidableEq

/-- The body of a GraphQL HTTP response once received: either text that
fails JSON parsing, or a parsed `{ data, errors? }` document whose
`errors` array may be present and whose `data` may be null. -/
inductive GqlBody where
  | malformed
  | document (hasErrors : Bool) (d : Option GqlData)
deriving Repr, DecidableEq

inductive GqlHttp where
  | networkError
  | response (status : Nat) (body : GqlBody)
deriving Repr, DecidableEq

inductive JsError where
  | network
  | httpStatus (status : Nat)
  | badJson
  | gqlErrors
  | message (s : String)
deriving Repr, DecidableEq

/-- `fetchGraphQL`: a rejected fetch propagates; a non-2xx status
throws; a body that fails JSON parsing throws; a present `errors` array
throws; otherwise `result.data` is returned (and may itself be null). -/
def fetchGraphQL : GqlHttp → Except JsError (Option GqlData)
  | .networkError => .error .network
  | .response status body =>
    if status < 200 ∨ 300 ≤ status then .error (.httpStatus status)
    else
      match body with
      | .malformed => .error .badJson
      | .document true _ => .error .gqlErrors
      | .document false d => .ok d

/-- The body of a REST response once received. -/
inductive RestBody where
  | noContent
  | jsonTask (t : CTask)
  | notJson (text : String)
deriving Repr, DecidableEq

inductive RestHttp where
  | networkError
  | response (status : Nat) (body : RestBody)
deriving Repr, DecidableEq

/-- `apiRequest` with `throwIfResNotOk`: a rejected fetch propagates and
a non-2xx status throws; otherwise the response is handed back. -/
def apiRequest : RestHttp → Except JsError (Nat × RestBody)
  | .networkError => .error .network
  | .response status body =>
    if status < 200 ∨ 300 ≤ status then .error (.httpStatus status)
    else .ok (status, body)

/-! ## Mutation functions (the transport fallback chains)

Each mutationFn is a function of the two transport outcomes for the one
GraphQL attempt and the (at most one) REST attempt, returning the
settled promise together with a trace counting transport attempts. -/

inductive MutationSource where
  | graphql
  | rest
deriving Repr, DecidableEq

structure TransportTrace where
  gqlAttempts : Nat
  restAttempts : Nat
deriving Repr, DecidableEq

/-- `toggleCompletionMutation.mutationFn` (TaskList.tsx): the GraphQL
attempt is made inside a try block whose catch rethrows, so a thrown
GraphQL error reaches the caller without a REST attempt; REST is
attempted only when the GraphQL call resolves but its data carries no
`updateTask`; the REST branch throws on a non-ok status and parses the
body as JSON (an unparseable body throws). -/
def toggleCompletionMutationFn (gql : GqlHttp) (rest : RestHttp) :
    Except JsError MutationSource × TransportTrace :=
  match fetchGraphQL gql with
  | .error e => (.error e, ⟨1, 0⟩)
  | .ok d =>
    match d.bind (fun gd => gd.updateTask) with
    | some _ => (.ok .graphql, ⟨1, 0⟩)
    | none =>
      match apiRequest rest with
      | .error e => (.error e, ⟨1, 1⟩)
      | .ok r =>
        match r.2 with
        | .jsonTask _ => (.ok .rest, ⟨1, 1⟩)
        | _ => (.error .badJson, ⟨1, 1⟩)

/-- `deleteTaskMutation.mutationFn` (TaskList.tsx): same structure as
the toggle; the REST branch only checks the status (no body parse). -/
def deleteTaskMutationFn (gql : GqlHttp) (rest : RestHttp) :
    Except JsError MutationSource × TransportTrace :=
  match fetchGraphQL gql with
  | .error e => (.error e, ⟨1, 0⟩)
  | .ok d =>
    match d.bind (fun gd => gd.deleteTask) with
    | some _ => (.ok .graphql, ⟨1, 0⟩)
    | none =>
      match apiRequest rest with
      | .error e => (.error e, ⟨1, 1⟩)
      | .ok _ => (.ok .rest, ⟨1, 1⟩)

/-- `createTaskMutation.mutationFn` (CreateTaskModal.tsx): the GraphQL
attempt sits in an inner try whose catch falls back to REST, so every
GraphQL failure mode (thrown error or resolved data without
`createTask`) leads to exactly one REST attempt; on an ok REST response
the body text is parsed leniently (a parse failure still resolves
successfully). -/
def createTaskMutationFn (gql : GqlHttp) (rest : RestHttp) :
    Except JsError MutationSource × TransportTrace :=
  let gqlResult : Except JsError MutationSource :=
    match fetchGraphQL gql with
    | .error e => .error e
    | .ok d =>
      match d.bind (fun gd => gd.createTask) with
      | some _ => .ok .graphql
      | none => .error (.message "create returned no data")
  match gqlResult with
  | .ok r => (.ok r, ⟨1, 0⟩)
  | .error _ =>
    match apiRequest rest with
    | .error e => (.error e, ⟨1, 1⟩)
    | .ok _ => (.ok .rest, ⟨1, 1⟩)

/-! ## Optimistic mutation coordinators

onMutate reads the previous cache value, writes the optimistic value
synchronously, and returns the previous value as the rollback context;
onError hands the saved previous value to setQueryData. -/

/-- react-query `queryClient.setQueryData` as observed on one key:
writing a resolved value of `undefined` is a documented no-op (the
entry keeps its current value; an absent value cannot be installed),
while any other value replaces the entry. -/
def setQueryData {α : Type} (current : Option α) (v : Option α) : Option α :=
  match v with
  | none => current
  | some x => some x

/-- The rollback context returned by onMutate of the toggle and delete
mutations. -/
structure GqlCtx where
  previousTasks : Option GqlTasksResult
deriving Repr, DecidableEq

/-- The list rewrite inside `toggleCompletionMutation.onMutate`: the
task with the targeted id is set to the new completed state, every
other task is mapped to itself. -/
def toggleTaskList (tid : CId) (newState : Bool) (ts : List CTask) : List CTask :=
  ts.map (fun t => if t.id = tid then { t with completed := newState } else t)

/-- The cache updater of `toggleCompletionMutation.onMutate`: flips the
targeted task to the new completed state inside the nested result
shape, guarding each level. -/
def toggleUpdater (tid : CId) (newState : Bool) :
    Option GqlTasksResult → Option GqlTasksResult
  | none => none
  | some r =>
    match r.data with
    | none => some r
    | some d =>
      match d.getUserTasks with
      | none => some r
      | some ts =>
        some { data := some { getUserTasks := some (toggleTaskList tid newState ts) } }

/-- `toggleCompletionMutation.onMutate`: saves the previous cache value
and applies the optimistic flip, with the new state computed from the
rendered task. -/
def toggleCompletionOnMutate (task : CTask) (cache : Option GqlTasksResult) :
    Option GqlTasksResult × GqlCtx :=
  (toggleUpdater task.id (!task.completed) cache, ⟨cache⟩)

/-- `toggleCompletionMutation.onError`: hands the saved value to
setQueryData on the cache value current at rejection time (a saved
`undefined` therefore restores nothing). -/
def toggleCompletionOnError (ctx : GqlCtx) (current : Option GqlTasksResult) :
    Option GqlTasksResult :=
  setQueryData current ctx.previousTasks

/-- The cache updater of `deleteTaskMutation.onMutate`: filters the
targeted task out of the cached list. -/
def deleteTaskUpdater (tid : CId) :
    Option GqlTasksResult → Option GqlTasksResult
  | none => none
  | some r =>
    match r.data with
    | none => some r
    | some d =>
      match d.getUserTasks with
      | none => some r
      | some ts =>
        some { data := some { getUserTasks := some (ts.filter (fun t => t.id ≠ tid)) } }

/-- `deleteTaskMutation.onMutate`. -/
def deleteTaskOnMutate (task : CTask) (cache : Option GqlTasksResult) :
    Option GqlTasksResult × GqlCtx :=
  (deleteTaskUpdater task.id cache, ⟨cache⟩)

/-- `deleteTaskMutation.onError`: hands the saved value to setQueryData
on the cache value current at rejection time. -/
def deleteTaskOnError (ctx : GqlCtx) (current : Option GqlTasksResult) :
    Option GqlTasksResult :=
  setQueryData current ctx.previousTasks

/-- The shape of the create-task form data after the resolver. -/
structure CreateForm where
  title : String
  description : Option String
  dueDate : Option String
  category : Option Nat
  priority : String
  completed : Bool
deriving Repr, DecidableEq

/-- Category-name lookup of `createTaskMutation.onMutate`: reads the
cached category list (defaulting to empty), finds the chosen id and
takes its name, defaulting to the empty string. -/
def lookupCategoryName (catsCache : Option (List CCategory)) (cid : Nat) : String :=
  match (catsCache.getD []).find? (fun c => c.id == cid) with
  | some c => c.name
  | none => ""

/-- The synthetic optimistic task built by `createTaskMutation.onMutate`:
a temp id from the clock, the form fields with JS falsy defaults, the
fixed user id 3, completed false, client timestamps and the optimistic
marker. -/
def createTempTask (d : CreateForm) (now : Nat) (catsCache : Option (List CCategory)) : CTask :=
  { id := .temp now
    title := d.title
    description := jsStrOr d.description ""
    dueDate := jsStrOrNull d.dueDate
    categoryId := d.category
    category :=
      match d.category with
      | none => ""
      | some cid => lookupCategoryName catsCache cid
    priority := jsStrOr d.priority "medium"
    userId := 3
    completed := false
    createdAt := now
    updatedAt := now
    isOptimistic := true }

/-- The rollback context returned by `createTaskMutation.onMutate`. -/
structure CreateCtx where
  previousTasks : Option (List CTask)
  tempTask : CTask
  closeAfterSuccess : Bool
deriving Repr, DecidableEq

/-- `createTaskMutation.onMutate`: saves the previous cache value under
the task-list key and prepends the synthetic task (an absent cache
value becomes the one-element list). -/
def createTaskOnMutate (d : CreateForm) (now : Nat) (catsCache : Option (List CCategory))
    (cache : Option (List CTask)) : Option (List CTask) × CreateCtx :=
  let tempTask := createTempTask d now catsCache
  let newCache : Option (List CTask) :=
    match cache with
    | none => some [tempTask]
    | some old => some (tempTask :: old)
  (newCache, { previousTasks := cache, tempTask, closeAfterSuccess := true })

/-- `createTaskMutation.onError`: hands the saved value to setQueryData
on the cache value current at rejection time; when the key held no
value at invocation the saved `undefined` makes the write a no-op and
the optimistic entry stays. -/
def createTaskOnError (ctx : CreateCtx) (current : Option (List CTask)) :
    Option (List CTask) :=
  setQueryData current ctx.previousTasks

/-! ## Mutation drivers

The optimistic lifecycle of one mutation invocation: onMutate runs
synchronously, then the mutationFn settles, and a rejection routes
through onError.  The resulting cache value for the affected key is
returned together with the settled result. -/

def runCreateTaskMutation (d : CreateForm) (now : Nat) (catsCache : Option (List CCategory))
    (cache : Option (List CTask)) (gql : GqlHttp) (rest : RestHttp) :
    Option (List CTask) × Except JsError MutationSource :=
  let m := createTaskOnMutate d now catsCache cache
  let r := createTaskMutationFn gql rest
  match r.1 with
  | .error e => (createTaskOnError m.2 m.1, .error e)
  | .ok v => (m.1, .ok v)

def runToggleCompletionMutation (task : CTask) (cache : Option GqlTasksResult)
    (gql : GqlHttp) (rest : RestHttp) :
    Option GqlTasksResult × Except JsError MutationSource :=
  let m := toggleCompletionOnMutate task cache
  let r := toggleCompletionMutationFn gql rest
  match r.1 with
  | .error e => (toggleCompletionOnError m.2 m.1, .error e)
  | .ok v => (m.1, .ok v)

def runDeleteTaskMutation (task : CTask) (cache : Option GqlTasksResult)
    (gql : GqlHttp) (rest : RestHttp) :
    Option GqlTasksResult × Except JsError MutationSource :=
  let m := deleteTaskOnMutate task cache
  let r := deleteTaskMutationFn gql rest
  match r.1 with
  | .error e => (deleteTaskOnError m.2 m.1, .error e)
  | .ok v => (m.1, .ok v)

/-! ## Form validation gates -/

/-- The zod schema of CreateTaskModal.tsx: the title must have length at
least one and the priority must be one of the three enum values. -/
def createTaskSchemaValidate (d : CreateForm) : Except String CreateForm :=
  if d.title.length < 1 then .error "タイトルは必須項目です"
  else if d.priority = "low" ∨ d.priority = "medium" ∨ d.priority = "high" then .ok d
  else .error "Invalid enum value"

inductive SubmitOutcome where
  | rejectedLocally (msg : String)
  | mutationInvoked (d : CreateForm)
deriving Repr, DecidableEq

/-- The form submit pipeline: the resolver validates the data and only a
successful parse invokes the mutation. -/
def handleCreateTaskSubmit (d : CreateForm) : SubmitOutcome :=
  match createTaskSchemaValidate d with
  | .error m => .rejectedLocally m
  | .ok d2 => .mutationInvoked d2

/-- The create-task submission from the form through the optimistic
mutation: a locally rejected form leaves the cache untouched and makes
no transport attempt. -/
def createTaskSubmission (d : CreateForm) (now : Nat) (catsCache : Option (List CCategory))
    (cache : Option (List CTask)) (gql : GqlHttp) (rest : RestHttp) :
    Option (List CTask) × TransportTrace :=
  match handleCreateTaskSubmit d with
  | .rejectedLocally _ => (cache, ⟨0, 0⟩)
  | .mutationInvoked d2 =>
    ((runCreateTaskMutation d2 now catsCache cache gql rest).1, (createTaskMutationFn gql rest).2)

/-- `handleCreateCategory` (CategoryManageModal.tsx): the mutation is
invoked with the trimmed name only when the trimmed name is non-empty;
otherwise nothing happens at all (the mutation has no onMutate, so no
cache edit precedes the network call in any case). -/
def handleCreateCategory (newCategoryName : String) : Option String :=
  if jsTrim newCategoryName ≠ "" then some (jsTrim newCategoryName) else none

/-! ## Query client retry configuration (src/client/src/lib/queryClient.ts) -/

structure QueryClientDefaults where
  queriesRetry : Nat
  mutationsRetry : Nat
  refetchIntervalMs : Nat
  staleTimeMs : Nat
  gcTimeMs : Nat
deriving Repr, DecidableEq

def queryClientDefaults : QueryClientDefaults :=
  { queriesRetry := 2
    mutationsRetry := 1
    refetchIntervalMs := 30000
    staleTimeMs := 60000
    gcTimeMs := 300000 }

/-- `retryDelay`: exponential backoff capped at ten seconds. -/
def retryDelayMs (attemptIndex : Nat) : Nat :=
  min (1000 * 2 ^ attemptIndex) 10000

/-- The react-query retry loop: an operation configured with `retry: n`
is attempted once and, on failure, re-issued up to `n` further times;
the first success stops the loop and the error of the final attempt is
what propagates.  The attempt oracle receives the attempt index; the
returned number counts how many times the operation was issued. -/
def runWithRetry {α : Type} (attempt : Nat → Except JsError α) :
    Nat → Nat → Except JsError α × Nat
  | 0, idx =>
    (attempt idx, 1)
  | retries + 1, idx =>
    match attempt idx with
    | .ok a => (.ok a, 1)
    | .error _ =>
      let r := runWithRetry attempt retries (idx + 1)
      (r.1, r.2 + 1)

/-! ## Concrete sample values -/

def sampleTask : Task :=
  { id := 1, title := "Buy milk", description := some "2 liters", dueDate := none
    categoryId := some 2, priority := "medium", completed := false, userId := 3
    createdAt := 0, updatedAt := 0 }

def sampleCat : Category := { id := 2, name := "Shopping", userId := 3, createdAt := 0 }

def sampleStore : MemStorage :=
  { tasks := [(1, sampleTask)], categories := [(2, sampleCat)], taskId := 2, categoryId := 3 }

def emptyMemStorage : MemStorage := { tasks := [], categories := [], taskId := 1, categoryId := 1 }

def emptyTitleInsert : InsertTask :=
  { title := "", description := none, dueDate := none, categoryId := none
    priority := "medium", completed := false, userId := 3 }

def noUpdate : TaskUpdate := {}

def emptyPgDb : PgDb := { tasks := [], categories := [] }

def samplePgDb : PgDb :=
  { tasks := [sampleTask, { sampleTask with id := 2, title := "Walk the dog", categoryId := none }]
    categories := [sampleCat] }

def emptyTitlePartial : PartialInsertTask := { title := some "", userId := some 3 }

def newTaskRow : Task :=
  { id := 1, title := "New Task", description := some "", dueDate := none, categoryId := none
    priority := "medium", completed := false, userId := 3, createdAt := 0, updatedAt := 0 }

def pgAfterCreate : PgDb := { tasks := [newTaskRow], categories := [] }

def sampleCTask : CTask :=
  { id := .num 1, title := "Buy milk", description := "", dueDate := none, categoryId := some 2
    category := "Shopping", priority := "medium", userId := 3, completed := false
    createdAt := 0, updatedAt := 0 }

def sampleCTask2 : CTask := { sampleCTask with id := .num 2, title := "Walk the dog", completed := true }

def sampleGqlCache : GqlTasksResult :=
  { data := some { getUserTasks := some [sampleCTask, sampleCTask2] } }

def sampleForm : CreateForm :=
  { title := "Buy milk", description := none, dueDate := none, category := some 2
    priority := "medium", completed := false }

def emptyTitleForm : CreateForm := { sampleForm with title := "" }

def alwaysFailNetwork : Nat → Except JsError MutationSource := fun _ => .error .network

/-! ## Association-list lemmas for the JS Map model -/

theorem mapGet_cons {α : Type} (p : Nat × α) (l : List (Nat × α)) (k : Nat) :
    mapGet (p :: l) k = if p.1 = k then some p.2 else mapGet l k := by
  by_cases h : p.1 = k
  · simp [mapGet, List.find?_cons_of_pos, h]
  · simp [mapGet, List.find?_cons_of_neg, h]

theorem mapGet_mapSet_self {α : Type} (l : List (Nat × α)) (k : Nat) (v : α) :
    mapGet (mapSet l k v) k = some v := by
  induction l with
  | nil => simp [mapSet, mapGet_cons]
  | cons p rest ih =>
    by_cases h : p.1 = k
    · simp [mapSet, h, mapGet_cons]
    · simp [mapSet, h, mapGet_cons, ih]

theorem mapGet_mapSet_ne {α : Type} (l : List (Nat × α)) (k k2 : Nat) (v : α) (h : k2 ≠ k) :
    mapGet (mapSet l k v) k2 = mapGet l k2 := by
  have hk : k ≠ k2 := fun hh => h hh.symm
  induction l with
  | nil => simp [mapSet, mapGet_cons, mapGet, hk]
  | cons p rest ih =>
    by_cases hp : p.1 = k
    · subst hp
      simp [mapSet, mapGet_cons, hk]
    · simp [mapSet, hp, mapGet_cons, ih]

theorem mapGet_eq_none_iff {α : Type} (l : List (Nat × α)) (k : Nat) :
    mapGet l k = none ↔ ∀ p ∈ l, p.1 ≠ k := by
  constructor
  · intro h p hp hk
    cases hf : l.find? (fun q => q.1 == k) with
    | none =>
      have := List.find?_eq_none.mp hf p hp
      simp [hk] at this
    | some q => simp [mapGet, hf] at h
  · intro h
    cases hf : l.find? (fun q => q.1 == k) with
    | none => simp [mapGet, hf]
    | some q =>
      have hq := List.find?_some hf
      have hmem := List.mem_of_find?_eq_some hf
      simp at hq
      exact absurd hq (h q hmem)

theorem mapGet_filter_ne {α : Type} (l : List (Nat × α)) (k : Nat) :
    mapGet (l.filter (fun p => p.1 ≠ k)) k = none := by
  rw [mapGet_eq_none_iff]
  intro p hp
  have := (List.mem_filter.mp hp).2
  simpa using this

theorem mapGet_mapDelete_self {α : Type} (l : List (Nat × α)) (k : Nat) :
    mapGet (mapDelete l k).2 k = none := by
  cases h : mapGet l k with
  | none => simp only [mapDelete, h]
  | some v =>
    simp only [mapDelete, h]
    exact mapGet_filter_ne l k

theorem mem_mapDelete_key_ne {α : Type} (l : List (Nat × α)) (k : Nat) (p : Nat × α)
    (hp : p ∈ (mapDelete l k).2) : p.1 ≠ k := by
  cases h : mapGet l k with
  | none =>
    simp [mapDelete, h] at hp
    exact (mapGet_eq_none_iff l k).mp h p hp
  | some v =>
    simp [mapDelete, h] at hp
    exact hp.2

theorem mem_mapDelete_subset {α : Type} (l : List (Nat × α)) (k : Nat) (p : Nat × α)
    (hp : p ∈ (mapDelete l k).2) : p ∈ l := by
  cases h : mapGet l k with
  | none => simpa [mapDelete, h] using hp
  | some v =>
    simp [mapDelete, h] at hp
    exact hp.1

/-! ## Claims -/

/-- C10: a request to GET /api/tasks or GET /api/categories whose userId
query parameter is missing or does not parse as a number (JS parseInt
yields NaN) is answered with a 400 and an error message and leaves the
store untouched; an array is returned exactly when the parameter parses
to a number. -/
theorem C10_userid_validation (s : MemStorage) (userId : Option String) :
    (parseIntJS userId = none →
      getTasksRoute s userId = ⟨400, .message "Valid User ID is required", s⟩ ∧
      getCategoriesRoute s userId = ⟨400, .message "Valid User ID is required", s⟩) ∧
    (∀ n : Int, parseIntJS userId = some n →
      getTasksRoute s userId = ⟨200, .tasks (s.getTasksByUserId n), s⟩ ∧
      getCategoriesRoute s userId = ⟨200, .categories (s.getCategoriesByUserId n), s⟩) := by
  refine ⟨fun h => ?_, fun n h => ?_⟩ <;>
    simp [getTasksRoute, getCategoriesRoute, h]

/-- C10 witness: a non-numeric userId is rejected with a 400 and a
numeric one is answered with the category array. -/
theorem C10_userid_validation_witness :
    getTasksRoute emptyMemStorage (some "abc")
      = ⟨400, .message "Valid User ID is required", emptyMemStorage⟩ ∧
    getCategoriesRoute emptyMemStorage (some "3")
      = ⟨200, .categories (emptyMemStorage.getCategoriesByUserId 3), emptyMemStorage⟩ :=
  ⟨((C10_userid_validation emptyMemStorage (some "abc")).1 (by decide)).1,
   ((C10_userid_validation emptyMemStorage (some "3")).2 3 (by decide)).2⟩

/-- C8: for a task id not in the store, updateTask returns undefined,
deleteTask returns false, the PATCH and DELETE routes answer 404, and in
every case the stored task collection is left unchanged, on both the
in-memory and the relational storage. -/
theorem C8_not_found_is_noop (s : MemStorage) (db : PgDb) (id : Nat) (u : TaskUpdate) (now : Nat)
    (hmem : mapGet s.tasks id = none)
    (hdb : db.tasks.find? (fun t => t.id == id) = none) :
    s.updateTask id u now = (none, s) ∧
    s.deleteTask id = (false, s) ∧
    patchTaskRoute s id u now = ⟨404, .message "Task not found", s⟩ ∧
    deleteTaskRoute s id = ⟨404, .message "Task not found", s⟩ ∧
    DatabaseStorage.updateTask db id u now = (none, db) ∧
    DatabaseStorage.deleteTask db id = (false, db) := by
  have hall : ∀ t ∈ db.tasks, t.id ≠ id := by
    intro t ht
    have := List.find?_eq_none.mp hdb t ht
    simpa using this
  have hany : db.tasks.any (fun t => t.id == id) = false := by
    rw [List.any_eq_false]
    intro t ht
    simpa using hall t ht
  have hfil : db.tasks.filter (fun t => !decide (t.id = id)) = db.tasks := by
    rw [List.filter_eq_self]
    intro t ht
    simpa using hall t ht
  refine ⟨?_, ?_, ?_, ?_, ?_, ?_⟩
  · simp [MemStorage.updateTask, hmem]
  · simp [MemStorage.deleteTask, mapDelete, hmem]
  · simp [patchTaskRoute, MemStorage.updateTask, hmem]
  · simp [deleteTaskRoute, MemStorage.deleteTask, mapDelete, hmem]
  · simp [DatabaseStorage.updateTask, hdb]
  · simp [DatabaseStorage.deleteTask, hany, hfil]

/-- C8 witness: updating an absent id on a concrete store is rejected
without touching the store. -/
theorem C8_not_found_is_noop_witness :
    sampleStore.updateTask 42 noUpdate 5 = (none, sampleStore) :=
  (C8_not_found_is_noop sampleStore samplePgDb 42 noUpdate 5 (by decide) (by decide)).1

/-- C6 counterexample: MemStorage.createTask performs no title
validation, so creating a task with an empty title through it (and
through POST /api/tasks, which hands the body over unvalidated) stores a
task whose title is the empty string, refuting the claim for two of the
three creation paths. -/
theorem C6_counterexample :
    (emptyMemStorage.createTask emptyTitleInsert 0).1.title = "" ∧
    mapGet (emptyMemStorage.createTask emptyTitleInsert 0).2.tasks 1
      = some (emptyMemStorage.createTask emptyTitleInsert 0).1 ∧
    (postTasksRoute emptyMemStorage emptyTitleInsert 0).status = 201 ∧
    (postTasksRoute emptyMemStorage emptyTitleInsert 0).body
      = .task (emptyMemStorage.createTask emptyTitleInsert 0).1 := by
  decide

/-- C6 amended: only the DatabaseStorage.createTask path makes an empty
stored title impossible, by replacing a missing or empty title with the
fallback text; MemStorage.createTask and POST /api/tasks store the
given title verbatim. -/
theorem C6_amended_db_title_nonempty (db : PgDb) (p : PartialInsertTask) (newId now : Nat)
    (t : Task) (db2 : PgDb)
    (h : DatabaseStorage.createTask db p newId now = .ok (t, db2)) :
    t.title ≠ "" := by
  unfold DatabaseStorage.createTask at h
  cases hu : p.userId with
  | none => rw [hu] at h; exact absurd h (by simp)
  | some uid =>
    rw [hu] at h
    by_cases h0 : uid = 0
    · simp [h0] at h
    · simp only [h0, if_false] at h
      have ht : t.title = jsStrOr p.title "New Task" := by
        cases h
        rfl
      rw [ht]
      cases hp : p.title with
      | none => simp [jsStrOr]
      | some str =>
        by_cases hs : str = ""
        · simp [jsStrOr, hs]
        · simp [jsStrOr, hs]

/-- C6 amended witness: the relational create path turns an empty title
into the fallback text, which is non-empty. -/
theorem C6_amended_db_title_nonempty_witness : newTaskRow.title ≠ "" :=
  C6_amended_db_title_nonempty emptyPgDb emptyTitlePartial 1 0 newTaskRow pgAfterCreate (by decide)

/-- C5: deleting a category deletes no task: the MemStorage task map is
untouched and the deleted category can no longer be read or listed; in
the relational model the set-null foreign-key action keeps every task
row (same count, pointwise unchanged except that references to the
deleted category are cleared) and the category listing excludes the
deleted id, so category-derived counts recompute without it. -/
theorem C5_delete_category_frame (s : MemStorage) (db : PgDb) (cid : Nat) (uid : Int)
    (hwf : ∀ p ∈ s.categories, (p.2).id = p.1)
    (hpresent : db.categories.any (fun c => c.id == cid) = true) :
    (s.deleteCategory cid).2.tasks = s.tasks ∧
    (s.deleteCategory cid).2.getCategory cid = none ∧
    (∀ c ∈ (s.deleteCategory cid).2.getCategoriesByUserId uid, c.id ≠ cid) ∧
    (DatabaseStorage.deleteCategory db cid).2.tasks.length = db.tasks.length ∧
    (DatabaseStorage.deleteCategory db cid).2.tasks
      = db.tasks.map (fun t => if t.categoryId = some cid then { t with categoryId := none } else t) ∧
    (∀ c ∈ (DatabaseStorage.deleteCategory db cid).2.categories, c.id ≠ cid) := by
  refine ⟨?_, ?_, ?_, ?_, ?_, ?_⟩
  · cases h : mapGet s.categories cid <;> simp [MemStorage.deleteCategory, mapDelete, h]
  · simpa [MemStorage.deleteCategory, MemStorage.getCategory]
      using mapGet_mapDelete_self s.categories cid
  · intro c hc
    simp only [MemStorage.getCategoriesByUserId, MemStorage.deleteCategory] at hc
    have h1 := (List.mem_filter.mp hc).1
    obtain ⟨p, hp, hpc⟩ := List.mem_map.mp h1
    have hkey := mem_mapDelete_key_ne s.categories cid p hp
    have hsub := mem_mapDelete_subset s.categories cid p hp
    rw [← hpc, hwf p hsub]
    exact hkey
  · simp [DatabaseStorage.deleteCategory, hpresent]
  · simp [DatabaseStorage.deleteCategory, hpresent]
  · intro c hc
    simp [DatabaseStorage.deleteCategory, hpresent, List.mem_filter] at hc
    exact hc.2

/-- C5 witness: deleting the one concrete category from the sample
stores leaves the task collections intact. -/
theorem C5_delete_category_frame_witness :
    (sampleStore.deleteCategory 2).2.tasks = sampleStore.tasks :=
  (C5_delete_category_frame sampleStore samplePgDb 2 3 (by decide) (by decide)).1

/-- C9: updateTask is a partial field replacement on both storages: the
task found under the id is merged so that each supplied field is
replaced and each absent field keeps its prior value, updatedAt is
stamped with the operation time while id and createdAt are preserved,
every other stored task is untouched, and the optimistic
completion-toggle cache edit rewrites only the completed flag of the
targeted task, leaving all other tasks and all other fields unchanged. -/
theorem C9_partial_update (s : MemStorage) (db : PgDb) (id : Nat) (u : TaskUpdate) (now : Nat)
    (t tdb : Task) (b : Bool) (tid : CId) (ts : List CTask)
    (hmem : mapGet s.tasks id = some t)
    (hdb : db.tasks.find? (fun r => r.id == id) = some tdb) :
    (s.updateTask id u now).1 = some (applyTaskUpdate t u now) ∧
    mapGet (s.updateTask id u now).2.tasks id = some (applyTaskUpdate t u now) ∧
    (u.title = none → (applyTaskUpdate t u now).title = t.title) ∧
    (u.description = none → (applyTaskUpdate t u now).description = t.description) ∧
    (u.dueDate = none → (applyTaskUpdate t u now).dueDate = t.dueDate) ∧
    (u.categoryId = none → (applyTaskUpdate t u now).categoryId = t.categoryId) ∧
    (u.priority = none → (applyTaskUpdate t u now).priority = t.priority) ∧
    (u.completed = none → (applyTaskUpdate t u now).completed = t.completed) ∧
    (∀ v, u.title = some v → (applyTaskUpdate t u now).title = v) ∧
    (∀ v, u.completed = some v → (applyTaskUpdate t u now).completed = v) ∧
    (applyTaskUpdate t u now).updatedAt = now ∧
    (applyTaskUpdate t u now).createdAt = t.createdAt ∧
    (applyTaskUpdate t u now).id = t.id ∧
    (∀ k, k ≠ id → mapGet (s.updateTask id u now).2.tasks k = mapGet s.tasks k) ∧
    (DatabaseStorage.updateTask db id u now).1 = some (applyTaskUpdate tdb u now) ∧
    (DatabaseStorage.updateTask db id u now).2.tasks
      = db.tasks.map (fun r => if r.id = id then applyTaskUpdate r u now else r) ∧
    (toggleTaskList tid b ts).length = ts.length ∧
    (∀ ct ∈ ts, ct.id ≠ tid → ct ∈ toggleTaskList tid b ts) ∧
    (∀ ct ∈ ts, ct.id = tid →
      ({ ct with completed := b } : CTask) ∈ toggleTaskList tid b ts ∧
      ({ ct with completed := b } : CTask).id = ct.id ∧
      ({ ct with completed := b } : CTask).title = ct.title ∧
      ({ ct with completed := b } : CTask).description = ct.description ∧
      ({ ct with completed := b } : CTask).dueDate = ct.dueDate ∧
      ({ ct with completed := b } : CTask).categoryId = ct.categoryId ∧
      ({ ct with completed := b } : CTask).category = ct.category ∧
      ({ ct with completed := b } : CTask).priority = ct.priority ∧
      ({ ct with completed := b } : CTask).userId = ct.userId ∧
      ({ ct with completed := b } : CTask).createdAt = ct.createdAt ∧
      ({ ct with completed := b } : CTask).updatedAt = ct.updatedAt ∧
      ({ ct with completed := b } : CTask).completed = b) := by
  refine ⟨?_, ?_, ?_, ?_, ?_, ?_, ?_, ?_, ?_, ?_, ?_, ?_, ?_, ?_, ?_, ?_, ?_, ?_, ?_⟩
  · simp [MemStorage.updateTask, hmem]
  · simp [MemStorage.updateTask, hmem, mapGet_mapSet_self]
  · intro h; simp [applyTaskUpdate, h]
  · intro h; simp [applyTaskUpdate, h]
  · intro h; simp [applyTaskUpdate, h]
  · intro h; simp [applyTaskUpdate, h]
  · intro h; simp [applyTaskUpdate, h]
  · intro h; simp [applyTaskUpdate, h]
  · intro v h; simp [applyTaskUpdate, h]
  · intro v h; simp [applyTaskUpdate, h]
  · simp [applyTaskUpdate]
  · simp [applyTaskUpdate]
  · simp [applyTaskUpdate]
  · intro k hk
    simp only [MemStorage.updateTask, hmem]
    exact mapGet_mapSet_ne s.tasks id k (applyTaskUpdate t u now) hk
  · simp [DatabaseStorage.updateTask, hdb]
  · simp [DatabaseStorage.updateTask, hdb]
  · simp [toggleTaskList]
  · intro ct hct hne
    have : (if ct.id = tid then { ct with completed := b } else ct) ∈ toggleTaskList tid b ts :=
      List.mem_map_of_mem _ hct
    simpa [hne] using this
  · intro ct hct heq
    refine ⟨?_, rfl, rfl, rfl, rfl, rfl, rfl, rfl, rfl, rfl, rfl, rfl⟩
    have : (if ct.id = tid then { ct with completed := b } else ct) ∈ toggleTaskList tid b ts :=
      List.mem_map_of_mem _ hct
    simpa [heq] using this

/-- C9 witness: a partial update of the completed flag alone on the
concrete sample store keeps the stored title. -/
theorem C9_partial_update_witness :
    (sampleStore.updateTask 1 { completed := some true } 7).1
      = some (applyTaskUpdate sampleTask { completed := some true } 7) :=
  (C9_partial_update sampleStore samplePgDb 1 { completed := some true } 7 sampleTask sampleTask
    true (CId.num 1) [sampleCTask] (by decide) (by decide)).1

/-- C1 counterexample: when the task-list key holds no value at
invocation, create onMutate installs the optimistic one-element list,
and onError hands the saved `undefined` to setQueryData, a documented
no-op, so after the transport failure the cache holds the optimistic
temp task instead of its pre-invocation (absent) value: the rollback
claim fails for the create mutation at this concrete input. -/
theorem C1_counterexample :
    (runCreateTaskMutation sampleForm 0 none none
        GqlHttp.networkError RestHttp.networkError).1
      = some [createTempTask sampleForm 0 none] ∧
    some [createTempTask sampleForm 0 none] ≠ (none : Option (List CTask)) := by
  decide

/-- C1 amended: when the mutationFn of the toggle or delete mutation
rejects, onError restores the affected cache key to the exact value it
held immediately before invocation; the same holds for the create
mutation whenever the key held a value at invocation, but when the key
held no value the rollback write of the saved `undefined` is a no-op
and the optimistic temp task is left applied. -/
theorem C1_amended_rollback (d : CreateForm) (task : CTask) (now : Nat)
    (catsCache : Option (List CCategory)) (prior : List CTask)
    (gcache : Option GqlTasksResult) (gql : GqlHttp) (rest : RestHttp) :
    (∀ e, (createTaskMutationFn gql rest).1 = .error e →
      (runCreateTaskMutation d now catsCache (some prior) gql rest).1 = some prior) ∧
    (∀ e, (createTaskMutationFn gql rest).1 = .error e →
      (runCreateTaskMutation d now catsCache none gql rest).1
        = some [createTempTask d now catsCache]) ∧
    (∀ e, (toggleCompletionMutationFn gql rest).1 = .error e →
      (runToggleCompletionMutation task gcache gql rest).1 = gcache) ∧
    (∀ e, (deleteTaskMutationFn gql rest).1 = .error e →
      (runDeleteTaskMutation task gcache gql rest).1 = gcache) := by
  refine ⟨fun e he => ?_, fun e he => ?_, fun e he => ?_, fun e he => ?_⟩
  · simp [runCreateTaskMutation, createTaskOnMutate, createTaskOnError, setQueryData, he]
  · simp [runCreateTaskMutation, createTaskOnMutate, createTaskOnError, setQueryData, he]
  · cases gcache <;>
      simp [runToggleCompletionMutation, toggleCompletionOnMutate, toggleUpdater,
        toggleCompletionOnError, setQueryData, he]
  · cases gcache <;>
      simp [runDeleteTaskMutation, deleteTaskOnMutate, deleteTaskUpdater,
        deleteTaskOnError, setQueryData, he]

/-- C1 amended witness: with the network down on both transports and a
concrete one-element prior value under the task-list key, the create
mutation rolls the key back to exactly that value. -/
theorem C1_amended_rollback_witness :
    (runCreateTaskMutation sampleForm 0 none (some [sampleCTask])
        GqlHttp.networkError RestHttp.networkError).1 = some [sampleCTask] :=
  (C1_amended_rollback sampleForm sampleCTask 0 none [sampleCTask] (some sampleGqlCache)
    GqlHttp.networkError RestHttp.networkError).1 JsError.network (by decide)

/-- C2: synchronously after onMutate and before any network settlement,
the cache reflects the optimistic result: create prepends the synthetic
task carrying a temporary id and the optimistic marker, toggle rewrites
the cached list so that exactly the targeted task has its completed
flag flipped, delete removes exactly the targeted item, and in every
case the prior cache value is saved in the rollback context. -/
theorem C2_optimistic_visibility (d : CreateForm) (now : Nat)
    (catsCache : Option (List CCategory)) (listCache : Option (List CTask))
    (task : CTask) (ts : List CTask) :
    ((createTaskOnMutate d now catsCache listCache).1
        = some (createTempTask d now catsCache :: listCache.getD []) ∧
     (createTaskOnMutate d now catsCache listCache).2.previousTasks = listCache ∧
     (createTempTask d now catsCache).id = CId.temp now ∧
     (createTempTask d now catsCache).isOptimistic = true ∧
     (createTempTask d now catsCache).title = d.title ∧
     (createTempTask d now catsCache).completed = false) ∧
    (toggleCompletionOnMutate task (some (gqlCacheOf ts))
        = (some (gqlCacheOf (toggleTaskList task.id (!task.completed) ts)),
           ⟨some (gqlCacheOf ts)⟩)) ∧
    ((∀ ct ∈ ts, ct.id = task.id → ct.completed = task.completed) →
      toggleTaskList task.id (!task.completed) ts
        = ts.map (fun ct => if ct.id = task.id then { ct with completed := !ct.completed } else ct)) ∧
    (deleteTaskOnMutate task (some (gqlCacheOf ts))
        = (some (gqlCacheOf (ts.filter (fun ct => ct.id ≠ task.id))),
           ⟨some (gqlCacheOf ts)⟩)) := by
  refine ⟨⟨?_, rfl, rfl, rfl, rfl, rfl⟩, ?_, ?_, ?_⟩
  · cases listCache <;> simp [createTaskOnMutate]
  · simp [toggleCompletionOnMutate, toggleUpdater, gqlCacheOf]
  · intro hmatch
    apply List.map_congr_left
    intro ct hct
    by_cases hid : ct.id = task.id
    · rw [hmatch ct hct hid]
    · simp [hid]
  · simp [deleteTaskOnMutate, deleteTaskUpdater, gqlCacheOf]

/-- C2 witness: on a concrete two-task cache whose entries agree with
the rendered task, the toggle rewrite is exactly the pointwise flip of
the targeted task. -/
theorem C2_optimistic_visibility_witness :
    toggleTaskList sampleCTask.id (!sampleCTask.completed) [sampleCTask, sampleCTask2]
      = [sampleCTask, sampleCTask2].map
          (fun ct => if ct.id = sampleCTask.id then { ct with completed := !ct.completed } else ct) :=
  (C2_optimistic_visibility sampleForm 0 none none sampleCTask
    [sampleCTask, sampleCTask2]).2.2.1 (by decide)

/-- C3: an empty title fails the create-task form resolver, so the
mutation is never invoked: the cache is untouched and no transport
attempt of any kind is made; an all-whitespace category name trims to
the empty string, so the create-category mutation is not invoked
either. -/
theorem C3_validation_gate (d : CreateForm) (now : Nat) (catsCache : Option (List CCategory))
    (cache : Option (List CTask)) (gql : GqlHttp) (rest : RestHttp) (name : String) :
    (d.title = "" →
      handleCreateTaskSubmit d = .rejectedLocally "タイトルは必須項目です" ∧
      createTaskSubmission d now catsCache cache gql rest = (cache, ⟨0, 0⟩)) ∧
    (jsTrim name = "" → handleCreateCategory name = none) := by
  constructor
  · intro h
    have hv : createTaskSchemaValidate d = .error "タイトルは必須項目です" := by
      simp [createTaskSchemaValidate, h]
    constructor
    · simp [handleCreateTaskSubmit, hv]
    · simp [createTaskSubmission, handleCreateTaskSubmit, hv]
  · intro h
    simp [handleCreateCategory, h]

/-- C3 witness: a concrete empty-title submission leaves the concrete
cache alone with zero transport attempts, and a whitespace-only
category name is dropped. -/
theorem C3_validation_gate_witness :
    createTaskSubmission emptyTitleForm 0 none (some [sampleCTask])
        GqlHttp.networkError RestHttp.networkError = (some [sampleCTask], ⟨0, 0⟩) ∧
    handleCreateCategory "   " = none :=
  ⟨((C3_validation_gate emptyTitleForm 0 none (some [sampleCTask])
      GqlHttp.networkError RestHttp.networkError "   ").1 (by decide)).2,
   (C3_validation_gate emptyTitleForm 0 none (some [sampleCTask])
      GqlHttp.networkError RestHttp.networkError "   ").2 (by decide)⟩

/-- C4 counterexample: the query client is configured with retry 1 for
mutations, so a mutation whose every transport attempt fails is issued
twice: after the final transport attempt of the first invocation fails,
the same request is re-issued automatically once, refuting the claim
that it is never re-issued. -/
theorem C4_counterexample :
    (runWithRetry alwaysFailNetwork queryClientDefaults.mutationsRetry 0).2 = 2 ∧
    (1 : Nat) < 2 := by
  decide

/-- C4 amended: after the fallback chain of one invocation fails, the
query client automatically re-issues the operation: a permanently
failing mutation is issued exactly twice (retry 1) and a permanently
failing query exactly three times (retry 2), with exponential backoff
delays capped at ten seconds; the error of the final attempt is then
propagated and the operation is not issued again. -/
theorem C4_amended_retry_policy {α : Type} (attempt : Nat → Except JsError α)
    (errs : Nat → JsError) (h : ∀ i, attempt i = .error (errs i)) :
    runWithRetry attempt queryClientDefaults.mutationsRetry 0 = (.error (errs 1), 2) ∧
    runWithRetry attempt queryClientDefaults.queriesRetry 0 = (.error (errs 2), 3) ∧
    retryDelayMs 0 = 1000 ∧ retryDelayMs 1 = 2000 ∧ retryDelayMs 2 = 4000 ∧
    retryDelayMs 4 = 10000 ∧ retryDelayMs 10 = 10000 := by
  refine ⟨?_, ?_, by decide, by decide, by decide, by decide, by decide⟩
  · simp [queryClientDefaults, runWithRetry, h 0, h 1]
  · simp [queryClientDefaults, runWithRetry, h 0, h 1, h 2]

/-- C4 amended witness: the always-failing mutation is issued exactly
twice and surfaces the network error. -/
theorem C4_amended_retry_policy_witness :
    runWithRetry alwaysFailNetwork queryClientDefaults.mutationsRetry 0
      = (.error .network, 2) :=
  (C4_amended_retry_policy alwaysFailNetwork (fun _ => JsError.network) (fun _ => rfl)).1

/-- C7 counterexample: with a network failure on the primary GraphQL
transport and a healthy REST transport, the toggle mutationFn makes no
REST attempt at all and surfaces the GraphQL error, refuting the claim
that every primary-transport error causes exactly one attempt of the
secondary REST transport. -/
theorem C7_counterexample :
    toggleCompletionMutationFn GqlHttp.networkError
        (RestHttp.response 200 (RestBody.jsonTask sampleCTask))
      = (.error .network, ⟨1, 0⟩) ∧ (0 : Nat) ≠ 1 := by
  decide

/-- C7 amended: the REST transport is attempted at most once by every
mutationFn; the create mutationFn attempts REST exactly once after any
GraphQL error and, when REST also fails, surfaces that single REST
failure; the toggle and delete mutationFns propagate a thrown GraphQL
error (network failure, non-2xx status, errors array, malformed JSON)
without any REST attempt, and attempt REST exactly once only when the
GraphQL call resolves without the expected data. -/
theorem C7_amended_single_fallback (gql : GqlHttp) (rest : RestHttp) :
    ((createTaskMutationFn gql rest).2.restAttempts ≤ 1 ∧
     (toggleCompletionMutationFn gql rest).2.restAttempts ≤ 1 ∧
     (deleteTaskMutationFn gql rest).2.restAttempts ≤ 1) ∧
    (∀ e, fetchGraphQL gql = .error e →
      (createTaskMutationFn gql rest).2.restAttempts = 1 ∧
      toggleCompletionMutationFn gql rest = (.error e, ⟨1, 0⟩) ∧
      deleteTaskMutationFn gql rest = (.error e, ⟨1, 0⟩)) ∧
    (∀ gd, fetchGraphQL gql = .ok gd → gd.bind (fun x => x.updateTask) = none →
      (toggleCompletionMutationFn gql rest).2.restAttempts = 1) ∧
    (∀ e e2, fetchGraphQL gql = .error e → apiRequest rest = .error e2 →
      (createTaskMutationFn gql rest).1 = .error e2) := by
  refine ⟨⟨?_, ?_, ?_⟩, fun e he => ?_, fun gd hg hnone => ?_, fun e e2 he hr => ?_⟩
  · cases hg : fetchGraphQL gql with
    | error e => cases hr : apiRequest rest <;>
        simp [createTaskMutationFn, hg, hr]
    | ok gd => cases hb : gd.bind (fun x => x.createTask) with
      | some t => simp [createTaskMutationFn, hg, hb]
      | none => cases hr : apiRequest rest <;>
          simp [createTaskMutationFn, hg, hb, hr]
  · cases hg : fetchGraphQL gql with
    | error e => simp [toggleCompletionMutationFn, hg]
    | ok gd => cases hb : gd.bind (fun x => x.updateTask) with
      | some t => simp [toggleCompletionMutationFn, hg, hb]
      | none => cases hr : apiRequest rest with
        | error e => simp [toggleCompletionMutationFn, hg, hb, hr]
        | ok r =>
          obtain ⟨st, body⟩ := r
          cases body <;> simp [toggleCompletionMutationFn, hg, hb, hr]
  · cases hg : fetchGraphQL gql with
    | error e => simp [deleteTaskMutationFn, hg]
    | ok gd => cases hb : gd.bind (fun x => x.deleteTask) with
      | some t => simp [deleteTaskMutationFn, hg, hb]
      | none => cases hr : apiRequest rest <;>
          simp [deleteTaskMutationFn, hg, hb, hr]
  · refine ⟨?_, ?_, ?_⟩
    · cases hr : apiRequest rest <;> simp [createTaskMutationFn, he, hr]
    · simp [toggleCompletionMutationFn, he]
    · simp [deleteTaskMutationFn, he]
  · cases hr : apiRequest rest with
    | error e => simp [toggleCompletionMutationFn, hg, hnone, hr]
    | ok r =>
      obtain ⟨st, body⟩ := r
      cases body <;> simp [toggleCompletionMutationFn, hg, hnone, hr]
  · simp [createTaskMutationFn, he, hr]

/-- C7 amended witness: a GraphQL network failure on the create
mutation leads to exactly one REST attempt. -/
theorem C7_amended_single_fallback_witness :
    (createTaskMutationFn GqlHttp.networkError
        (RestHttp.response 201 RestBody.noContent)).2.restAttempts = 1 :=
  ((C7_amended_single_fallback GqlHttp.networkError
      (RestHttp.response 201 RestBody.noContent)).2.1 JsError.network (by decide)).1

end TaskMaster
